import Mathlib

/-!
Shallow embedding of the application-lifecycle coordinator implemented in
shell/browser/browser.cc (class Browser).

The mutable member state of the C++ class becomes the Lean structure
Browser; each public member function becomes a pure function from Browser
to Browser paired with the list of observable events it emits (observer
notifications, continuation invocations, collaborator requests, process
exit).  Observers are passive veto carriers: each observer is identified
by an id and carries the boolean it writes into the shared prevent flag
when it is visited during a veto round, exactly mirroring the
for-each-observer loops of the source.  External collaborator answers
(WindowList.IsEmpty, whether the message loop is running) enter as
boolean parameters of the operations that consult them.
-/

namespace Electron

/-- An observer registered with the Browser.  The id identifies it in the
event trace; the three booleans say whether its callback sets the shared
prevent flag to true during the corresponding notification round. -/
structure BrowserObserver where
  id : Nat
  beforeQuitPrevent : Bool
  willQuitPrevent : Bool
  openFilePrevent : Bool
deriving DecidableEq, Repr

/-- Observable effects of the member functions of Browser: one event per
observer callback invocation, plus continuation invocation, collaborator
requests and direct process exit. -/
inductive Event where
  | onBeforeQuit (id : Nat)
  | onWillQuit (id : Nat)
  | onQuit (id : Nat)
  | onWindowAllClosed (id : Nat)
  | onOpenFile (id : Nat) (path : String)
  | onOpenURL (id : Nat) (url : String)
  | onActivate (id : Nat) (hasVisibleWindows : Bool)
  | onFinishLaunching (id : Nat)
  | runQuitClosure (c : Nat)
  | closeAllWindows
  | destroyAllWindows
  | processExit (code : Int)
deriving DecidableEq, Repr

/-- The member state of class Browser: the four lifecycle booleans, the
stored quit closure (continuations are identified by a Nat token), the
lazily created ready promise (some r, with r true when resolved), and the
ordered observer registry. -/
structure Browser where
  is_quiting_ : Bool := false
  is_exiting_ : Bool := false
  is_shutdown_ : Bool := false
  is_ready_ : Bool := false
  quit_main_message_loop_ : Option Nat := none
  ready_promise_ : Option Bool := none
  observers_ : List BrowserObserver := []
deriving DecidableEq, Repr

/-- The shared loop shape of Browser::HandleBeforeQuit, Browser::NotifyAndShutdown
and Browser::OpenFile: visit every observer in registration order, emit its
notification, and accumulate the shared prevent flag through the whole list
without short-circuiting.  Returns the final flag and the emitted events. -/
def vetoLoop (veto : BrowserObserver → Bool) (note : Nat → Event) :
    List BrowserObserver → Bool → Bool × List Event
  | [], prevent => (prevent, [])
  | o :: rest, prevent =>
    let r := vetoLoop veto note rest (prevent || veto o)
    (r.1, note o.id :: r.2)

/-- Browser::Shutdown (browser.cc lines 86-103): no-op when is_shutdown_ is
already set; otherwise set is_shutdown_ and is_quiting_, notify every
observer with OnQuit, then run and clear the stored quit closure if there
is one. -/
def Browser.Shutdown (b : Browser) : Browser × List Event :=
  if b.is_shutdown_ then (b, [])
  else
    let evs := b.observers_.map (fun o => Event.onQuit o.id)
    match b.quit_main_message_loop_ with
    | some c =>
        ({ b with is_shutdown_ := true, is_quiting_ := true,
                  quit_main_message_loop_ := none },
         evs ++ [Event.runQuitClosure c])
    | none =>
        ({ b with is_shutdown_ := true, is_quiting_ := true }, evs)

/-- Browser::SetMainMessageLoopQuitClosure (browser.cc lines 197-202): run
the closure at once when already shut down, otherwise store it. -/
def Browser.SetMainMessageLoopQuitClosure (b : Browser) (c : Nat) :
    Browser × List Event :=
  if b.is_shutdown_ then (b, [Event.runQuitClosure c])
  else ({ b with quit_main_message_loop_ := some c }, [])

/-- Browser::NotifyAndShutdown (browser.cc lines 204-218): no-op when shut
down; run the will-quit veto round; when vetoed clear is_quiting_ and stop,
otherwise call Shutdown. -/
def Browser.NotifyAndShutdown (b : Browser) : Browser × List Event :=
  if b.is_shutdown_ then (b, [])
  else
    let r := vetoLoop (fun o => o.willQuitPrevent) Event.onWillQuit b.observers_ false
    if r.1 then ({ b with is_quiting_ := false }, r.2)
    else
      let s := b.Shutdown
      (s.1, r.2 ++ s.2)

/-- Browser::HandleBeforeQuit (browser.cc lines 220-226): run the
before-quit veto round and return the negation of the final prevent flag. -/
def Browser.HandleBeforeQuit (b : Browser) : Bool × List Event :=
  let r := vetoLoop (fun o => o.beforeQuitPrevent) Event.onBeforeQuit b.observers_ false
  (!r.1, r.2)

/-- Browser::Quit (browser.cc lines 47-59).  windowsEmpty is the answer of
the WindowList::IsEmpty collaborator call. -/
def Browser.Quit (b : Browser) (windowsEmpty : Bool) : Browser × List Event :=
  if b.is_quiting_ then (b, [])
  else
    let h := b.HandleBeforeQuit
    let b1 := { b with is_quiting_ := h.1 }
    if h.1 then
      if windowsEmpty then
        let s := b1.NotifyAndShutdown
        (s.1, h.2 ++ s.2)
      else (b1, h.2 ++ [Event.closeAllWindows])
    else (b1, h.2)

/-- Browser::Exit (browser.cc lines 61-84).  loopRunning is the success of
AtomBrowserMainParts::SetExitCode: when false the message loop is not ready
and the process exits directly; otherwise set is_quiting_ and is_exiting_
and either shut down (no windows) or destroy all windows. -/
def Browser.Exit (b : Browser) (code : Int) (loopRunning : Bool)
    (windowsEmpty : Bool) : Browser × List Event :=
  if loopRunning then
    let b1 := { b with is_quiting_ := true, is_exiting_ := true }
    if windowsEmpty then b1.Shutdown
    else (b1, [Event.destroyAllWindows])
  else (b, [Event.processExit code])

/-- Browser::OnWindowCloseCancelled (browser.cc lines 228-233): clear
is_quiting_ when it is set. -/
def Browser.OnWindowCloseCancelled (b : Browser) : Browser × List Event :=
  if b.is_quiting_ then ({ b with is_quiting_ := false }, []) else (b, [])

/-- Browser::OnWindowAllClosed (browser.cc lines 235-244): exiting wins and
shuts down; else a pending quit runs the confirmation step; else the plain
OnWindowAllClosed notification is dispatched. -/
def Browser.OnWindowAllClosed (b : Browser) : Browser × List Event :=
  if b.is_exiting_ then b.Shutdown
  else if b.is_quiting_ then b.NotifyAndShutdown
  else (b, b.observers_.map (fun o => Event.onWindowAllClosed o.id))

/-- Browser::DidFinishLaunching (browser.cc lines 154-167): set is_ready_,
resolve the ready promise when one exists, notify observers. -/
def Browser.DidFinishLaunching (b : Browser) : Browser × List Event :=
  ({ b with is_ready_ := true,
            ready_promise_ := b.ready_promise_.map (fun _ => true) },
   b.observers_.map (fun o => Event.onFinishLaunching o.id))

/-- Browser::WhenReady (browser.cc lines 169-177): lazily create the ready
promise, resolving it at creation when is_ready_ already holds; return
whether the handle given out is resolved. -/
def Browser.WhenReady (b : Browser) : Browser × Bool :=
  match b.ready_promise_ with
  | some r => (b, r)
  | none => ({ b with ready_promise_ := some b.is_ready_ }, b.is_ready_)

/-- Browser::OpenFile (browser.cc lines 131-137): notify every observer
with the shared prevent flag and return the final flag; state untouched. -/
def Browser.OpenFile (b : Browser) (path : String) : Browser × Bool × List Event :=
  let r := vetoLoop (fun o => o.openFilePrevent)
    (fun i => Event.onOpenFile i path) b.observers_ false
  (b, r.1, r.2)

/-- Browser::OpenURL (browser.cc lines 139-142): pure notification. -/
def Browser.OpenURL (b : Browser) (url : String) : Browser × List Event :=
  (b, b.observers_.map (fun o => Event.onOpenURL o.id url))

/-- Browser::Activate (browser.cc lines 144-147): pure notification. -/
def Browser.Activate (b : Browser) (hasVisibleWindows : Bool) :
    Browser × List Event :=
  (b, b.observers_.map (fun o => Event.onActivate o.id hasVisibleWindows))

/-- One external trigger of the coordinator, with the collaborator answers
it consumes baked in as arguments. -/
inductive Op where
  | quit (windowsEmpty : Bool)
  | exitApp (code : Int) (loopRunning : Bool) (windowsEmpty : Bool)
  | shutdown
  | setClosure (c : Nat)
  | windowCloseCancelled
  | windowAllClosed
  | didFinishLaunching
  | whenReady
  | openFile (path : String)
  | openURL (url : String)
  | activate (hasVisibleWindows : Bool)
deriving DecidableEq, Repr

/-- Whether the operation supplies a teardown continuation. -/
def Op.suppliesClosure : Op → Bool
  | .setClosure _ => true
  | _ => false

/-- Dispatch one operation to the member function it names. -/
def runOp (b : Browser) : Op → Browser × List Event
  | .quit we => b.Quit we
  | .exitApp code lr we => b.Exit code lr we
  | .shutdown => b.Shutdown
  | .setClosure c => b.SetMainMessageLoopQuitClosure c
  | .windowCloseCancelled => b.OnWindowCloseCancelled
  | .windowAllClosed => b.OnWindowAllClosed
  | .didFinishLaunching => b.DidFinishLaunching
  | .whenReady => ((b.WhenReady).1, [])
  | .openFile p => ((b.OpenFile p).1, (b.OpenFile p).2.2)
  | .openURL u => b.OpenURL u
  | .activate h => b.Activate h

/-- Run a whole sequence of operations, concatenating the event traces. -/
def runAllT (b : Browser) : List Op → Browser × List Event
  | [] => (b, [])
  | op :: ops =>
    let s := runOp b op
    let r := runAllT s.1 ops
    (r.1, s.2 ++ r.2)

/-- Number of invocations of the continuation with token c in a trace. -/
def runsOf (c : Nat) : List Event → Nat
  | [] => 0
  | e :: rest => (if e = Event.runQuitClosure c then 1 else 0) + runsOf c rest

/-- 1 when the continuation with token c is currently stored, else 0. -/
def closHeld (c : Nat) (b : Browser) : Nat :=
  if b.quit_main_message_loop_ = some c then 1 else 0

/-- Recogniser for OnQuit notification events. -/
def isQuitNote : Event → Bool
  | .onQuit _ => true
  | _ => false

/-- Recogniser for OnWillQuit notification events. -/
def isWillQuitNote : Event → Bool
  | .onWillQuit _ => true
  | _ => false

/-- Recogniser for continuation invocation events. -/
def isClosureRun : Event → Bool
  | .runQuitClosure _ => true
  | _ => false

/-- Number of OnQuit notifications in a trace. -/
def quitNotes : List Event → Nat
  | [] => 0
  | e :: rest => (if isQuitNote e then 1 else 0) + quitNotes rest

/-- Number of OnWillQuit notifications in a trace. -/
def willNotes : List Event → Nat
  | [] => 0
  | e :: rest => (if isWillQuitNote e then 1 else 0) + willNotes rest

/-- Number of continuation invocations (any token) in a trace. -/
def closRuns : List Event → Nat
  | [] => 0
  | e :: rest => (if isClosureRun e then 1 else 0) + closRuns rest

/-- Repeated Shutdown: call Browser.Shutdown n times in a row, gathering
the combined event trace. -/
def shutdownN : Nat → Browser → Browser × List Event
  | 0, b => (b, [])
  | n + 1, b =>
    let s := b.Shutdown
    let r := shutdownN n s.1
    (r.1, s.2 ++ r.2)

/-- The cancellation scenario: Quit with windows still open, then a
window-close cancellation, then the all-windows-closed completion.
Returns the final state, the concatenated trace of the three calls, and
the trace of the final OnWindowAllClosed call alone. -/
def cancelSeq (b : Browser) : Browser × List Event × List Event :=
  let p1 := b.Quit false
  let p2 := p1.1.OnWindowCloseCancelled
  let p3 := p2.1.OnWindowAllClosed
  (p3.1, p1.2 ++ p2.2 ++ p3.2, p3.2)

/-- The state reached from the initial Browser by Exit with the loop
running and windows open, followed by a window-close cancellation: here
is_exiting_ is true while is_quiting_ and is_shutdown_ are false. -/
def exitThenCancelled : Browser :=
  ((({} : Browser).Exit 0 true false).1.OnWindowCloseCancelled).1

/-- The state reached from the initial Browser by a single Shutdown call:
is_shutdown_ and is_quiting_ are both true. -/
def afterShutdown : Browser := (({} : Browser).Shutdown).1

/-- A single observer that vetoes the will-quit confirmation round. -/
def willQuitVetoer : BrowserObserver :=
  { id := 0, beforeQuitPrevent := false, willQuitPrevent := true,
    openFilePrevent := false }

/-- A Browser whose only observer vetoes the will-quit round. -/
def vetoedBrowser : Browser := { observers_ := [willQuitVetoer] }

theorem vetoLoop_flag (veto : BrowserObserver → Bool) (note : Nat → Event)
    (l : List BrowserObserver) (p : Bool) :
    (vetoLoop veto note l p).1 = (p || l.any veto) := by
  induction l generalizing p with
  | nil => simp [vetoLoop]
  | cons o rest ih => simp [vetoLoop, ih, Bool.or_assoc]

theorem vetoLoop_events (veto : BrowserObserver → Bool) (note : Nat → Event)
    (l : List BrowserObserver) (p : Bool) :
    (vetoLoop veto note l p).2 = l.map (fun o => note o.id) := by
  induction l generalizing p with
  | nil => simp [vetoLoop]
  | cons o rest ih => simp [vetoLoop, ih]

theorem Shutdown_shutdown (b : Browser) : (b.Shutdown).1.is_shutdown_ = true := by
  cases hs : b.is_shutdown_ <;>
    cases hm : b.quit_main_message_loop_ <;>
    simp [Browser.Shutdown, hs, hm]

theorem Shutdown_of_shutdown (b : Browser) (hs : b.is_shutdown_ = true) :
    b.Shutdown = (b, []) := by
  simp [Browser.Shutdown, hs]

theorem Shutdown_exiting (b : Browser) :
    (b.Shutdown).1.is_exiting_ = b.is_exiting_ := by
  cases hs : b.is_shutdown_ <;>
    cases hm : b.quit_main_message_loop_ <;>
    simp [Browser.Shutdown, hs, hm]

theorem NotifyAndShutdown_exiting (b : Browser) :
    (b.NotifyAndShutdown).1.is_exiting_ = b.is_exiting_ := by
  unfold Browser.NotifyAndShutdown
  cases hs : b.is_shutdown_ <;> simp [hs]
  cases hv : (vetoLoop (fun o => o.willQuitPrevent) Event.onWillQuit b.observers_ false).1 <;>
    simp [hv, Shutdown_exiting]

theorem Quit_exiting (b : Browser) (we : Bool) :
    (b.Quit we).1.is_exiting_ = b.is_exiting_ := by
  unfold Browser.Quit
  cases hq : b.is_quiting_ <;> simp [hq]
  cases hh : (b.HandleBeforeQuit).1 <;> simp [hh]
  cases we <;> simp
  have := NotifyAndShutdown_exiting { b with is_quiting_ := true }
  simpa using this

theorem OnWindowAllClosed_exiting (b : Browser) :
    (b.OnWindowAllClosed).1.is_exiting_ = b.is_exiting_ := by
  unfold Browser.OnWindowAllClosed
  cases he : b.is_exiting_ <;> simp [he]
  · cases hq : b.is_quiting_ <;> simp [hq, NotifyAndShutdown_exiting, he]
  · simp [Shutdown_exiting, he]

theorem Exit_exiting (b : Browser) (code : Int) (lr we : Bool) :
    (b.Exit code lr we).1.is_exiting_ = (lr || b.is_exiting_) := by
  unfold Browser.Exit
  cases lr <;> simp
  cases we <;> simp [Shutdown_exiting]

theorem runOp_exiting (b : Browser) (op : Op) (he : b.is_exiting_ = true) :
    (runOp b op).1.is_exiting_ = true := by
  cases op with
  | quit we => simp [runOp, Quit_exiting, he]
  | exitApp code lr we => simp [runOp, Exit_exiting, he]
  | shutdown => simp [runOp, Shutdown_exiting, he]
  | setClosure c =>
      cases hs : b.is_shutdown_ <;>
        simp [runOp, Browser.SetMainMessageLoopQuitClosure, hs, he]
  | windowCloseCancelled =>
      cases hq : b.is_quiting_ <;>
        simp [runOp, Browser.OnWindowCloseCancelled, hq, he]
  | windowAllClosed => simp [runOp, OnWindowAllClosed_exiting, he]
  | didFinishLaunching => simp [runOp, Browser.DidFinishLaunching, he]
  | whenReady =>
      cases hp : b.ready_promise_ <;> simp [runOp, Browser.WhenReady, hp, he]
  | openFile p => simp [runOp, Browser.OpenFile, he]
  | openURL u => simp [runOp, Browser.OpenURL, he]
  | activate h => simp [runOp, Browser.Activate, he]

theorem runAllT_exiting (ops : List Op) (b : Browser) (he : b.is_exiting_ = true) :
    (runAllT b ops).1.is_exiting_ = true := by
  induction ops generalizing b with
  | nil => simpa [runAllT] using he
  | cons op ops ih =>
      simp only [runAllT]
      exact ih _ (runOp_exiting b op he)

/-- Claim C2: once Exit has run with the scheduling loop running (so
is_exiting_ is set), any later OnWindowAllClosed invokes Shutdown, leaving
is_shutdown_ true, no matter which operations (including window-close
cancellations that clear is_quiting_) happen in between. -/
theorem exit_precedence (b : Browser) (code : Int) (we : Bool) (ops : List Op) :
    ((runAllT ((b.Exit code true we).1) ops).1.OnWindowAllClosed).1.is_shutdown_
      = true := by
  have h1 : ((b.Exit code true we).1).is_exiting_ = true := by
    simp [Exit_exiting]
  have h2 := runAllT_exiting ops _ h1
  unfold Browser.OnWindowAllClosed
  simp [h2, Shutdown_shutdown]

/-- Claim C3: a veto round (before-quit via HandleBeforeQuit, will-quit
via the same vetoLoop that NotifyAndShutdown runs) notifies all k
observers exactly once in registration order with no short-circuiting,
its vetoed outcome is exactly "some observer set the prevent flag", and
HandleBeforeQuit returns the negation of the final flag. -/
theorem veto_round_complete (obs : List BrowserObserver) :
    (Browser.HandleBeforeQuit { observers_ := obs }).2
        = obs.map (fun o => Event.onBeforeQuit o.id) ∧
    (Browser.HandleBeforeQuit { observers_ := obs }).1
        = !(obs.any fun o => o.beforeQuitPrevent) ∧
    (vetoLoop (fun o => o.willQuitPrevent) Event.onWillQuit obs false).2
        = obs.map (fun o => Event.onWillQuit o.id) ∧
    (vetoLoop (fun o => o.willQuitPrevent) Event.onWillQuit obs false).1
        = (obs.any fun o => o.willQuitPrevent) := by
  refine ⟨?_, ?_, ?_, ?_⟩ <;>
    simp [Browser.HandleBeforeQuit, vetoLoop_events, vetoLoop_flag]

/-- Claim C8: Exit with the scheduling loop not running requests immediate
process termination with the given code, leaves the state untouched and
notifies no observer - the trace is the single processExit event. -/
theorem exit_fast_path (b : Browser) (code : Int) (we : Bool) :
    b.Exit code false we = (b, [Event.processExit code]) := by
  simp [Browser.Exit]

/-- Claim C9: the pass-through notifications OpenFile, OpenURL and
Activate dispatch to every registered observer in order but return the
state unchanged, so every lifecycle flag and the stored continuation are
untouched. -/
theorem passthrough_frame (b : Browser) (path url : String) (hv : Bool) :
    (b.OpenFile path).1 = b ∧
    (b.OpenFile path).2.2 = b.observers_.map (fun o => Event.onOpenFile o.id path) ∧
    b.OpenURL url = (b, b.observers_.map (fun o => Event.onOpenURL o.id url)) ∧
    b.Activate hv = (b, b.observers_.map (fun o => Event.onActivate o.id hv)) := by
  refine ⟨rfl, ?_, rfl, rfl⟩
  simp [Browser.OpenFile, vetoLoop_events]

theorem quitNotes_append (l1 l2 : List Event) :
    quitNotes (l1 ++ l2) = quitNotes l1 + quitNotes l2 := by
  induction l1 with
  | nil => simp [quitNotes]
  | cons e rest ih => simp [quitNotes, ih]; omega

theorem closRuns_append (l1 l2 : List Event) :
    closRuns (l1 ++ l2) = closRuns l1 + closRuns l2 := by
  induction l1 with
  | nil => simp [closRuns]
  | cons e rest ih => simp [closRuns, ih]; omega

theorem willNotes_append (l1 l2 : List Event) :
    willNotes (l1 ++ l2) = willNotes l1 + willNotes l2 := by
  induction l1 with
  | nil => simp [willNotes]
  | cons e rest ih => simp [willNotes, ih]; omega

theorem runsOf_append (c : Nat) (l1 l2 : List Event) :
    runsOf c (l1 ++ l2) = runsOf c l1 + runsOf c l2 := by
  induction l1 with
  | nil => simp [runsOf]
  | cons e rest ih => simp [runsOf, ih]; omega

theorem quitNotes_map_onQuit (l : List BrowserObserver) :
    quitNotes (l.map fun o => Event.onQuit o.id) = l.length := by
  induction l with
  | nil => simp [quitNotes]
  | cons o rest ih => simp [quitNotes, isQuitNote, ih]; omega

theorem closRuns_map_onQuit (l : List BrowserObserver) :
    closRuns (l.map fun o => Event.onQuit o.id) = 0 := by
  induction l with
  | nil => simp [closRuns]
  | cons o rest ih => simp [closRuns, isClosureRun, ih]

theorem shutdownN_of_shutdown (n : Nat) (b : Browser) (hs : b.is_shutdown_ = true) :
    shutdownN n b = (b, []) := by
  induction n with
  | zero => rfl
  | succ n ih => simp [shutdownN, Shutdown_of_shutdown b hs, ih]

theorem shutdownN_one (b : Browser) : shutdownN 1 b = b.Shutdown := by
  simp [shutdownN]

theorem shutdownN_succ_eq_one (n : Nat) (b : Browser) :
    shutdownN (n + 1) b = shutdownN 1 b := by
  simp [shutdownN, shutdownN_of_shutdown n _ (Shutdown_shutdown b)]

theorem Shutdown_quitNotes (b : Browser) (hs : b.is_shutdown_ = false) :
    quitNotes (b.Shutdown).2 = b.observers_.length := by
  unfold Browser.Shutdown
  cases hm : b.quit_main_message_loop_ <;>
    simp [hs, hm, quitNotes_append, quitNotes_map_onQuit, quitNotes, isQuitNote]

theorem Shutdown_closRuns (b : Browser) : closRuns (b.Shutdown).2 ≤ 1 := by
  unfold Browser.Shutdown
  cases hs : b.is_shutdown_ <;> cases hm : b.quit_main_message_loop_ <;>
    simp [hs, hm, closRuns_append, closRuns_map_onQuit, closRuns, isClosureRun]

/-- Claim C1: calling Shutdown N times (N at least 1) yields exactly the
same final state and event trace as calling it once; from a not yet shut
down state that trace holds exactly one OnQuit notification per registered
observer, and in every case the teardown continuation is invoked at most
once, because every call after the first is a no-op. -/
theorem shutdown_idempotent (b : Browser) (n : Nat) (h : 1 ≤ n) :
    shutdownN n b = shutdownN 1 b ∧
    (b.is_shutdown_ = false →
      quitNotes (shutdownN n b).2 = b.observers_.length) ∧
    closRuns (shutdownN n b).2 ≤ 1 := by
  obtain ⟨m, rfl⟩ : ∃ m, n = m + 1 := ⟨n - 1, by omega⟩
  refine ⟨shutdownN_succ_eq_one m b, ?_, ?_⟩
  · intro hs
    rw [shutdownN_succ_eq_one, shutdownN_one]
    exact Shutdown_quitNotes b hs
  · rw [shutdownN_succ_eq_one, shutdownN_one]
    exact Shutdown_closRuns b

/-- Concrete instantiation of shutdown_idempotent at the initial Browser
state and N = 2. -/
theorem shutdown_idempotent_witness :
    1 ≤ 2 ∧
    (shutdownN 2 ({} : Browser) = shutdownN 1 {} ∧
      (({} : Browser).is_shutdown_ = false →
        quitNotes (shutdownN 2 ({} : Browser)).2
          = ({} : Browser).observers_.length) ∧
      closRuns (shutdownN 2 ({} : Browser)).2 ≤ 1) :=
  ⟨by decide, shutdown_idempotent {} 2 (by decide)⟩

theorem Shutdown_ready (b : Browser) :
    (b.Shutdown).1.is_ready_ = b.is_ready_ ∧
    (b.Shutdown).1.ready_promise_ = b.ready_promise_ := by
  cases hs : b.is_shutdown_ <;> cases hm : b.quit_main_message_loop_ <;>
    simp [Browser.Shutdown, hs, hm]

theorem NotifyAndShutdown_ready (b : Browser) :
    (b.NotifyAndShutdown).1.is_ready_ = b.is_ready_ ∧
    (b.NotifyAndShutdown).1.ready_promise_ = b.ready_promise_ := by
  unfold Browser.NotifyAndShutdown
  cases hs : b.is_shutdown_ <;> simp [hs]
  cases hv : (vetoLoop (fun o => o.willQuitPrevent) Event.onWillQuit b.observers_ false).1 <;>
    simp [hv, Shutdown_ready]

theorem Quit_ready (b : Browser) (we : Bool) :
    (b.Quit we).1.is_ready_ = b.is_ready_ ∧
    (b.Quit we).1.ready_promise_ = b.ready_promise_ := by
  unfold Browser.Quit
  cases hq : b.is_quiting_ <;> simp [hq]
  cases hh : (b.HandleBeforeQuit).1 <;> simp [hh]
  cases we <;> simp
  have := NotifyAndShutdown_ready { b with is_quiting_ := true }
  simpa using this

theorem Exit_ready (b : Browser) (code : Int) (lr we : Bool) :
    (b.Exit code lr we).1.is_ready_ = b.is_ready_ ∧
    (b.Exit code lr we).1.ready_promise_ = b.ready_promise_ := by
  unfold Browser.Exit
  cases lr <;> simp
  cases we <;> simp
  have := Shutdown_ready { b with is_quiting_ := true, is_exiting_ := true }
  simpa using this

theorem OnWindowAllClosed_ready (b : Browser) :
    (b.OnWindowAllClosed).1.is_ready_ = b.is_ready_ ∧
    (b.OnWindowAllClosed).1.ready_promise_ = b.ready_promise_ := by
  unfold Browser.OnWindowAllClosed
  cases he : b.is_exiting_ <;> simp [he, Shutdown_ready]
  cases hq : b.is_quiting_ <;> simp [hq, NotifyAndShutdown_ready]

theorem runOp_ready (b : Browser) (op : Op)
    (h1 : b.is_ready_ = true)
    (h2 : b.ready_promise_ = none ∨ b.ready_promise_ = some true) :
    (runOp b op).1.is_ready_ = true ∧
    ((runOp b op).1.ready_promise_ = none ∨
      (runOp b op).1.ready_promise_ = some true) := by
  cases op with
  | quit we =>
      have := Quit_ready b we
      simp [runOp, this.1, this.2, h1, h2]
  | exitApp code lr we =>
      have := Exit_ready b code lr we
      simp [runOp, this.1, this.2, h1, h2]
  | shutdown =>
      have := Shutdown_ready b
      simp [runOp, this.1, this.2, h1, h2]
  | setClosure c =>
      cases hs : b.is_shutdown_ <;>
        simp [runOp, Browser.SetMainMessageLoopQuitClosure, hs, h1, h2]
  | windowCloseCancelled =>
      cases hq : b.is_quiting_ <;>
        simp [runOp, Browser.OnWindowCloseCancelled, hq, h1, h2]
  | windowAllClosed =>
      have := OnWindowAllClosed_ready b
      simp [runOp, this.1, this.2, h1, h2]
  | didFinishLaunching =>
      rcases h2 with h2 | h2 <;> simp [runOp, Browser.DidFinishLaunching, h2]
  | whenReady =>
      rcases h2 with h2 | h2 <;> simp [runOp, Browser.WhenReady, h2, h1]
  | openFile p => simp [runOp, Browser.OpenFile, h1, h2]
  | openURL u => simp [runOp, Browser.OpenURL, h1, h2]
  | activate h => simp [runOp, Browser.Activate, h1, h2]

theorem runAllT_ready (ops : List Op) (b : Browser)
    (h1 : b.is_ready_ = true)
    (h2 : b.ready_promise_ = none ∨ b.ready_promise_ = some true) :
    (runAllT b ops).1.is_ready_ = true ∧
    ((runAllT b ops).1.ready_promise_ = none ∨
      (runAllT b ops).1.ready_promise_ = some true) := by
  induction ops generalizing b with
  | nil => simpa [runAllT] using ⟨h1, h2⟩
  | cons op ops ih =>
      simp only [runAllT]
      have h := runOp_ready b op h1 h2
      exact ih _ h.1 h.2

/-- Claim C7: after DidFinishLaunching has run, no matter which
operations follow, WhenReady hands out a handle that is already resolved
(lazily creating and immediately resolving the promise when it is
absent), so resolution does not depend on the order of WhenReady relative
to readiness. -/
theorem ready_replay (b : Browser) (ops : List Op) :
    ((runAllT (b.DidFinishLaunching).1 ops).1.WhenReady).2 = true ∧
    ((runAllT (b.DidFinishLaunching).1 ops).1.WhenReady).1.ready_promise_
      = some true := by
  have h0 : (b.DidFinishLaunching).1.is_ready_ = true := by
    simp [Browser.DidFinishLaunching]
  have h0p : (b.DidFinishLaunching).1.ready_promise_ = none ∨
      (b.DidFinishLaunching).1.ready_promise_ = some true := by
    cases hp : b.ready_promise_ <;> simp [Browser.DidFinishLaunching, hp]
  obtain ⟨hr, hp⟩ := runAllT_ready ops _ h0 h0p
  rcases hp with hp | hp <;> simp [Browser.WhenReady, hp, hr]

/-- Claim C10: when the will-quit confirmation round is vetoed, the only
state change NotifyAndShutdown makes is clearing is_quiting_: is_shutdown_
stays false, is_exiting_ and the stored continuation are untouched, and
the trace is exactly the will-quit round with no OnQuit notification and
no continuation invocation, so a later Quit can restart the sequence. -/
theorem willquit_veto_frame (b : Browser)
    (hs : b.is_shutdown_ = false)
    (hv : (b.observers_.any fun o => o.willQuitPrevent) = true) :
    b.NotifyAndShutdown
      = ({ b with is_quiting_ := false },
         b.observers_.map fun o => Event.onWillQuit o.id) := by
  unfold Browser.NotifyAndShutdown
  simp [hs, vetoLoop_flag, vetoLoop_events, hv]

/-- Concrete instantiation of willquit_veto_frame at a Browser whose only
observer vetoes will-quit. -/
theorem willquit_veto_frame_witness :
    vetoedBrowser.is_shutdown_ = false ∧
    (vetoedBrowser.observers_.any fun o => o.willQuitPrevent) = true ∧
    vetoedBrowser.NotifyAndShutdown
      = ({ vetoedBrowser with is_quiting_ := false },
         vetoedBrowser.observers_.map fun o => Event.onWillQuit o.id) :=
  ⟨rfl, by decide, willquit_veto_frame vetoedBrowser rfl (by decide)⟩

theorem any_eq_false_of_all_not (p : BrowserObserver → Bool)
    (l : List BrowserObserver) (h : (l.all fun o => !(p o)) = true) :
    l.any p = false := by
  induction l with
  | nil => simp
  | cons o rest ih =>
      simp only [List.all_cons, Bool.and_eq_true] at h
      have hpo : p o = false := by simpa using h.1
      simp [List.any_cons, ih h.2, hpo]

theorem quitNotes_map (f : BrowserObserver → Event) (l : List BrowserObserver)
    (h : ∀ o, isQuitNote (f o) = false) : quitNotes (l.map f) = 0 := by
  induction l with
  | nil => simp [quitNotes]
  | cons o rest ih => simp [quitNotes, h o, ih]

theorem willNotes_map (f : BrowserObserver → Event) (l : List BrowserObserver)
    (h : ∀ o, isWillQuitNote (f o) = false) : willNotes (l.map f) = 0 := by
  induction l with
  | nil => simp [willNotes]
  | cons o rest ih => simp [willNotes, h o, ih]

theorem closRuns_map (f : BrowserObserver → Event) (l : List BrowserObserver)
    (h : ∀ o, isClosureRun (f o) = false) : closRuns (l.map f) = 0 := by
  induction l with
  | nil => simp [closRuns]
  | cons o rest ih => simp [closRuns, h o, ih]

/-- Claim C4 as stated is false on the code: exitThenCancelled is a
reachable state (Exit with the loop running and windows open, then a
window-close cancellation) that is not shut down and has no before-quit
vetoer, yet the Quit, OnWindowCloseCancelled, OnWindowAllClosed sequence
ends with is_shutdown_ true, because is_exiting_ is still set. -/
theorem cancellation_counterexample :
    exitThenCancelled.is_shutdown_ = false ∧
    (exitThenCancelled.observers_.all fun o => !o.beforeQuitPrevent) = true ∧
    (cancelSeq exitThenCancelled).1.is_shutdown_ = true := by decide

/-- Claim C4 amended: starting from a non-shutdown state in which
is_exiting_ is also false, Quit with windows open and no before-quit veto,
then OnWindowCloseCancelled, then OnWindowAllClosed never invokes Shutdown
or the will-quit round: is_shutdown_ stays false, the final call
dispatches exactly the plain OnWindowAllClosed notifications, and the
whole trace has no will-quit note, no OnQuit note and no continuation
invocation. -/
theorem cancellation_amended (b : Browser)
    (hs : b.is_shutdown_ = false) (he : b.is_exiting_ = false)
    (hv : (b.observers_.all fun o => !o.beforeQuitPrevent) = true) :
    (cancelSeq b).1.is_shutdown_ = false ∧
    (cancelSeq b).2.2 = b.observers_.map (fun o => Event.onWindowAllClosed o.id) ∧
    willNotes (cancelSeq b).2.1 = 0 ∧
    quitNotes (cancelSeq b).2.1 = 0 ∧
    closRuns (cancelSeq b).2.1 = 0 := by
  have hany : (b.observers_.any fun o => o.beforeQuitPrevent) = false :=
    any_eq_false_of_all_not _ _ hv
  have hq3 : ({ b with is_quiting_ := false } : Browser).OnWindowAllClosed
      = ({ b with is_quiting_ := false },
         b.observers_.map fun o => Event.onWindowAllClosed o.id) := by
    simp [Browser.OnWindowAllClosed, he]
  cases hq : b.is_quiting_
  case false =>
    have hq1 : b.Quit false
        = ({ b with is_quiting_ := true },
           (b.observers_.map fun o => Event.onBeforeQuit o.id)
             ++ [Event.closeAllWindows]) := by
      unfold Browser.Quit Browser.HandleBeforeQuit
      simp [hq, vetoLoop_flag, vetoLoop_events, hany]
    have hq2 : ({ b with is_quiting_ := true } : Browser).OnWindowCloseCancelled
        = ({ b with is_quiting_ := false }, []) := by
      simp [Browser.OnWindowCloseCancelled]
    simp only [cancelSeq, hq1, hq2, hq3]
    refine ⟨hs, ?_, ?_, ?_, ?_⟩ <;>
      simp [willNotes_append, quitNotes_append, closRuns_append,
        willNotes_map, quitNotes_map, closRuns_map,
        willNotes, quitNotes, closRuns,
        isWillQuitNote, isQuitNote, isClosureRun]
  case true =>
    have hq1 : b.Quit false = (b, []) := by
      simp [Browser.Quit, hq]
    have hq2 : b.OnWindowCloseCancelled = ({ b with is_quiting_ := false }, []) := by
      simp [Browser.OnWindowCloseCancelled, hq]
    simp only [cancelSeq, hq1, hq2, hq3]
    refine ⟨hs, ?_, ?_, ?_, ?_⟩ <;>
      simp [willNotes_append, quitNotes_append, closRuns_append,
        willNotes_map, quitNotes_map, closRuns_map,
        willNotes, quitNotes, closRuns,
        isWillQuitNote, isQuitNote, isClosureRun]

/-- Concrete instantiation of cancellation_amended at the initial
Browser state. -/
theorem cancellation_amended_witness :
    ({} : Browser).is_shutdown_ = false ∧
    ({} : Browser).is_exiting_ = false ∧
    (({} : Browser).observers_.all fun o => !o.beforeQuitPrevent) = true ∧
    ((cancelSeq {}).1.is_shutdown_ = false ∧
      (cancelSeq ({} : Browser)).2.2
        = ({} : Browser).observers_.map (fun o => Event.onWindowAllClosed o.id) ∧
      willNotes (cancelSeq ({} : Browser)).2.1 = 0 ∧
      quitNotes (cancelSeq ({} : Browser)).2.1 = 0 ∧
      closRuns (cancelSeq ({} : Browser)).2.1 = 0) :=
  ⟨rfl, rfl, rfl, cancellation_amended {} rfl rfl rfl⟩

/-- Claim C5 as stated is false on the code: afterShutdown has
is_shutdown_ and is_quiting_ both true, yet OnWindowCloseCancelled, one of
the operations the claim quantifies over, still clears is_quiting_. -/
theorem quitting_frozen_counterexample :
    afterShutdown.is_shutdown_ = true ∧
    afterShutdown.is_quiting_ = true ∧
    (afterShutdown.OnWindowCloseCancelled).1.is_quiting_ = false := by decide

/-- Claim C5 amended: in a state with is_shutdown_ and is_quiting_ both
true (as Shutdown leaves them), Quit, Exit, Shutdown and
OnWindowAllClosed leave is_quiting_ unchanged; OnWindowCloseCancelled is
the exception and still clears is_quiting_ even after shutdown. -/
theorem quitting_after_shutdown (b : Browser)
    (hs : b.is_shutdown_ = true) (hq : b.is_quiting_ = true)
    (we : Bool) (code : Int) (lr : Bool) :
    (b.Quit we).1.is_quiting_ = true ∧
    (b.Exit code lr we).1.is_quiting_ = true ∧
    (b.Shutdown).1.is_quiting_ = true ∧
    (b.OnWindowAllClosed).1.is_quiting_ = true ∧
    (b.OnWindowCloseCancelled).1.is_quiting_ = false := by
  refine ⟨?_, ?_, ?_, ?_, ?_⟩
  · simp [Browser.Quit, hq]
  · unfold Browser.Exit
    cases lr
    · simpa using hq
    · cases we
      · simp
      · rw [if_pos rfl, if_pos rfl,
          Shutdown_of_shutdown _ (by simpa using hs)]
  · rw [Shutdown_of_shutdown b hs]; exact hq
  · unfold Browser.OnWindowAllClosed
    cases he : b.is_exiting_ <;>
      simp [hq, Browser.NotifyAndShutdown, hs, Shutdown_of_shutdown b hs]
  · simp [Browser.OnWindowCloseCancelled, hq]

/-- Concrete instantiation of quitting_after_shutdown at the state left
by a single Shutdown from the initial Browser. -/
theorem quitting_after_shutdown_witness :
    afterShutdown.is_shutdown_ = true ∧
    afterShutdown.is_quiting_ = true ∧
    ((afterShutdown.Quit true).1.is_quiting_ = true ∧
      (afterShutdown.Exit 0 true true).1.is_quiting_ = true ∧
      (afterShutdown.Shutdown).1.is_quiting_ = true ∧
      (afterShutdown.OnWindowAllClosed).1.is_quiting_ = true ∧
      (afterShutdown.OnWindowCloseCancelled).1.is_quiting_ = false) :=
  ⟨by decide, by decide, quitting_after_shutdown afterShutdown (by decide) (by decide) true 0 true⟩

theorem runsOf_map (c : Nat) (f : BrowserObserver → Event)
    (l : List BrowserObserver) (h : ∀ o, f o ≠ Event.runQuitClosure c) :
    runsOf c (l.map f) = 0 := by
  induction l with
  | nil => simp [runsOf]
  | cons o rest ih => simp [runsOf, h o, ih]

theorem Shutdown_conserves (c : Nat) (b : Browser) :
    runsOf c (b.Shutdown).2 + closHeld c (b.Shutdown).1 = closHeld c b := by
  unfold Browser.Shutdown closHeld
  cases hs : b.is_shutdown_ <;> cases hm : b.quit_main_message_loop_ <;>
    simp [hs, hm, runsOf_append, runsOf_map, runsOf]

theorem NotifyAndShutdown_conserves (c : Nat) (b : Browser) :
    runsOf c (b.NotifyAndShutdown).2 + closHeld c (b.NotifyAndShutdown).1
      = closHeld c b := by
  unfold Browser.NotifyAndShutdown
  cases hs : b.is_shutdown_ <;> simp [hs, runsOf]
  cases hv : (vetoLoop (fun o => o.willQuitPrevent) Event.onWillQuit b.observers_ false).1
  · have hsd := Shutdown_conserves c b
    simp [vetoLoop_events, runsOf_append, runsOf_map]
    omega
  · simp [vetoLoop_events, runsOf_map, closHeld]

theorem closHeld_quiting (c : Nat) (b : Browser) (q : Bool) :
    closHeld c { b with is_quiting_ := q } = closHeld c b := rfl

theorem Quit_conserves (c : Nat) (b : Browser) (we : Bool) :
    runsOf c (b.Quit we).2 + closHeld c (b.Quit we).1 = closHeld c b := by
  unfold Browser.Quit
  cases hq : b.is_quiting_ <;> simp [hq, runsOf]
  have hev : (b.HandleBeforeQuit).2
      = b.observers_.map fun o => Event.onBeforeQuit o.id := by
    simp [Browser.HandleBeforeQuit, vetoLoop_events]
  cases hh : (b.HandleBeforeQuit).1
  · simp [hev, runsOf_map, closHeld]
  · cases we
    · simp [hev, runsOf_append, runsOf_map, runsOf, closHeld]
    · have hns := NotifyAndShutdown_conserves c { b with is_quiting_ := true }
      rw [closHeld_quiting] at hns
      simpa [hev, runsOf_append, runsOf_map] using hns

theorem Exit_conserves (c : Nat) (b : Browser) (code : Int) (lr we : Bool) :
    runsOf c (b.Exit code lr we).2 + closHeld c (b.Exit code lr we).1
      = closHeld c b := by
  unfold Browser.Exit
  cases lr
  · simp [runsOf]
  · cases we
    · simp [runsOf, closHeld]
    · have hsd := Shutdown_conserves c { b with is_quiting_ := true, is_exiting_ := true }
      simp only [closHeld] at hsd ⊢
      simpa using hsd

theorem OnWindowAllClosed_conserves (c : Nat) (b : Browser) :
    runsOf c (b.OnWindowAllClosed).2 + closHeld c (b.OnWindowAllClosed).1
      = closHeld c b := by
  unfold Browser.OnWindowAllClosed
  cases he : b.is_exiting_
  · cases hq : b.is_quiting_
    · simp [hq, runsOf_map]
    · simpa [hq] using NotifyAndShutdown_conserves c b
  · simpa using Shutdown_conserves c b

theorem runOp_conserves (c : Nat) (b : Browser) (op : Op)
    (hop : op.suppliesClosure = false) :
    runsOf c (runOp b op).2 + closHeld c (runOp b op).1 = closHeld c b := by
  cases op with
  | quit we => simpa [runOp] using Quit_conserves c b we
  | exitApp code lr we => simpa [runOp] using Exit_conserves c b code lr we
  | shutdown => simpa [runOp] using Shutdown_conserves c b
  | setClosure d => simp [Op.suppliesClosure] at hop
  | windowCloseCancelled =>
      cases hq : b.is_quiting_ <;>
        simp [runOp, Browser.OnWindowCloseCancelled, hq, runsOf, closHeld]
  | windowAllClosed => simpa [runOp] using OnWindowAllClosed_conserves c b
  | didFinishLaunching =>
      simp [runOp, Browser.DidFinishLaunching, runsOf_map, closHeld]
  | whenReady =>
      cases hp : b.ready_promise_ <;>
        simp [runOp, Browser.WhenReady, hp, runsOf, closHeld]
  | openFile p =>
      simp [runOp, Browser.OpenFile, vetoLoop_events, runsOf_map, closHeld]
  | openURL u => simp [runOp, Browser.OpenURL, runsOf_map, closHeld]
  | activate h => simp [runOp, Browser.Activate, runsOf_map, closHeld]

theorem runAllT_conserves (c : Nat) (ops : List Op) :
    ∀ b : Browser, (ops.all fun o => !o.suppliesClosure) = true →
      runsOf c (runAllT b ops).2 + closHeld c (runAllT b ops).1 = closHeld c b := by
  induction ops with
  | nil => intro b _; simp [runAllT, runsOf]
  | cons op ops ih =>
      intro b hops
      simp only [List.all_cons, Bool.and_eq_true] at hops
      have h1 := runOp_conserves c b op (by simpa using hops.1)
      have h2 := ih (runOp b op).1 hops.2
      simp only [runAllT, runsOf_append]
      omega

/-- Claim C6: the teardown continuation is never dropped.  When
is_shutdown_ already holds, SetMainMessageLoopQuitClosure runs the
continuation synchronously instead of storing it.  Otherwise it stores
it silently, the first Shutdown runs it exactly once, and over any later
operation sequence that supplies no further continuation, the number of
invocations of the stored token plus its retention in the slot is
exactly one: it runs at most once, and if it never runs it is still
stored. -/
theorem continuation_never_dropped (b : Browser) (c : Nat) (ops : List Op)
    (hops : (ops.all fun o => !o.suppliesClosure) = true) :
    (b.is_shutdown_ = true →
      b.SetMainMessageLoopQuitClosure c = (b, [Event.runQuitClosure c])) ∧
    (b.is_shutdown_ = false →
      (b.SetMainMessageLoopQuitClosure c).2 = [] ∧
      runsOf c ((b.SetMainMessageLoopQuitClosure c).1.Shutdown).2 = 1 ∧
      runsOf c (runAllT (b.SetMainMessageLoopQuitClosure c).1 ops).2 +
        closHeld c (runAllT (b.SetMainMessageLoopQuitClosure c).1 ops).1 = 1) := by
  constructor
  · intro hs; simp [Browser.SetMainMessageLoopQuitClosure, hs]
  · intro hs
    have hset : b.SetMainMessageLoopQuitClosure c
        = ({ b with quit_main_message_loop_ := some c }, []) := by
      simp [Browser.SetMainMessageLoopQuitClosure, hs]
    refine ⟨by simp [hset], ?_, ?_⟩
    · rw [hset]
      unfold Browser.Shutdown
      simp [hs, runsOf_append, runsOf_map, runsOf]
    · rw [hset]
      have h := runAllT_conserves c ops
        { b with quit_main_message_loop_ := some c } hops
      simpa [closHeld] using h

/-- Concrete instantiation of continuation_never_dropped at the initial
Browser state with token 0 and a single following Shutdown. -/
theorem continuation_never_dropped_witness :
    (([Op.shutdown] : List Op).all fun o => !o.suppliesClosure) = true ∧
    ((({} : Browser).is_shutdown_ = true →
        ({} : Browser).SetMainMessageLoopQuitClosure 0
          = ({}, [Event.runQuitClosure 0])) ∧
      (({} : Browser).is_shutdown_ = false →
        (({} : Browser).SetMainMessageLoopQuitClosure 0).2 = [] ∧
        runsOf 0 ((({} : Browser).SetMainMessageLoopQuitClosure 0).1.Shutdown).2 = 1 ∧
        runsOf 0 (runAllT (({} : Browser).SetMainMessageLoopQuitClosure 0).1 [Op.shutdown]).2 +
          closHeld 0 (runAllT (({} : Browser).SetMainMessageLoopQuitClosure 0).1 [Op.shutdown]).1 = 1)) :=
  ⟨by decide, continuation_never_dropped {} 0 [Op.shutdown] (by decide)⟩

end Electron
